import Mathlib

/-!
# pypy/translator/c/src/thread.h

A model of the thread header of the PyPy C backend:

* the preprocessor conditionals that pick the platform files
  (`thread_pthread.h`, `thread_nt.h`) and the definitions of the four
  `RPyThreadStaticTLS*` names;
* the two expansions of `RPyThreadStaticTLS_Create/Get/Set`;
* the function `RPyThreadFusedReleaseAcquireLock`.

The platform files are not part of the header, so the lock primitives
(`RPyThreadReleaseLock`, `RPyThreadAcquireLock`) and the key primitives
(`RPyThreadTLS_Create/Get/Set`) are parameters of the model.
-/

namespace PyPyThread

/-! ## Part 1: what the preprocessor does with the header -/

/-- Files that thread.h pulls in after "Python.h". -/
inductive Header where
  | pthread_h
  | thread_pthread_h
  | thread_nt_h
  deriving DecidableEq

/-- The two sets of definitions that thread.h can give to `RPyThreadStaticTLS`,
`RPyThreadStaticTLS_Create`, `RPyThreadStaticTLS_Get`, `RPyThreadStaticTLS_Set`:
lines 27-30 (a `__thread void *` variable) or lines 36-39 (the names of the
platform file). -/
inductive StaticTLS where
  | thread_local
  | backend_alias
  deriving DecidableEq

/-- The build configuration as thread.h meets it on line 8, that is after
`#include "Python.h"`: which of the symbols tested by the header are defined.
`pthread_h_defines_POSIX_THREADS` says whether the system file `<pthread.h>`
defines `_POSIX_THREADS` when it is included (the source comment on line 13
expects it to). -/
structure BuildEnv where
  _POSIX_THREADS : Bool
  HAVE_PTHREAD_H : Bool
  NT_THREADS : Bool
  USE___THREAD : Bool
  RPyThreadStaticTLS : Bool
  PYPY_NOT_MAIN_FILE : Bool
  pthread_h_defines_POSIX_THREADS : Bool
  deriving DecidableEq

/-- State of the preprocessor while it walks through thread.h: the tested
symbols that can change on the way, the files included so far (in order), the
names defined by the header itself, and which definition of the
`RPyThreadStaticTLS*` names the header has made, if any. -/
structure PPState where
  _POSIX_THREADS : Bool
  RPyThreadStaticTLS : Bool
  includes : List Header
  defines : List String
  staticTLS : Option StaticTLS
  deriving DecidableEq

/-- What the compiler sees once thread.h has been preprocessed. -/
structure TranslationUnit where
  includes : List Header
  defines : List String
  staticTLS : Option StaticTLS
  declaresFused : Bool
  definesFused : Bool
  deriving DecidableEq

/-- Lines 4-6: the include guard and "Python.h". The model is the first
inclusion of the header (a later one is empty because of the guard). -/
def enter (e : BuildEnv) : PPState :=
  { _POSIX_THREADS := e._POSIX_THREADS
    RPyThreadStaticTLS := e.RPyThreadStaticTLS
    includes := []
    defines := ["__PYPY_THREAD_H"]
    staticTLS := none }

/-- Lines 8-15:
`#ifndef _POSIX_THREADS` / `# ifdef HAVE_PTHREAD_H` / `#  include <pthread.h>`. -/
def detect_pthread (e : BuildEnv) (s : PPState) : PPState :=
  if !s._POSIX_THREADS then
    if e.HAVE_PTHREAD_H then
      { s with
        includes := s.includes ++ [Header.pthread_h]
        _POSIX_THREADS := e.pthread_h_defines_POSIX_THREADS }
    else s
  else s

/-- Lines 17-19: `#ifdef _POSIX_THREADS` / `#include "thread_pthread.h"`. -/
def include_thread_pthread (s : PPState) : PPState :=
  if s._POSIX_THREADS then
    { s with includes := s.includes ++ [Header.thread_pthread_h] }
  else s

/-- Lines 21-23: `#ifdef NT_THREADS` / `#include "thread_nt.h"`. -/
def include_thread_nt (e : BuildEnv) (s : PPState) : PPState :=
  if e.NT_THREADS then
    { s with includes := s.includes ++ [Header.thread_nt_h] }
  else s

/-- Lines 25-32: `#ifdef USE___THREAD` and the four definitions on top of a
`__thread void *` variable. -/
def define_thread_local (e : BuildEnv) (s : PPState) : PPState :=
  if e.USE___THREAD then
    { s with
      RPyThreadStaticTLS := true
      defines := s.defines ++
        ["RPyThreadStaticTLS", "RPyThreadStaticTLS_Create",
         "RPyThreadStaticTLS_Get", "RPyThreadStaticTLS_Set"]
      staticTLS := some StaticTLS.thread_local }
  else s

/-- Lines 34-41: `#ifndef RPyThreadStaticTLS` and the four definitions that
name the platform file's `RPyThreadTLS*`. -/
def define_backend_alias (s : PPState) : PPState :=
  if !s.RPyThreadStaticTLS then
    { s with
      RPyThreadStaticTLS := true
      defines := s.defines ++
        ["RPyThreadStaticTLS", "RPyThreadStaticTLS_Create",
         "RPyThreadStaticTLS_Get", "RPyThreadStaticTLS_Set"]
      staticTLS := some StaticTLS.backend_alias }
  else s

/-- The whole header, top to bottom, as the preprocessor reads it. The header
has no `#error` line, so no branch ends in `Except.error`; whether the compiler
then accepts the text of lines 47-55 is not part of the model. Line 47 declares
the fused function and lines 49-55 define it unless `PYPY_NOT_MAIN_FILE` is
defined. Apart from what
`<pthread.h>` does to `_POSIX_THREADS`, the included files are taken not to
define or undefine any symbol that thread.h tests. -/
def thread_h (e : BuildEnv) : Except String TranslationUnit :=
  let s0 := enter e
  let s1 := detect_pthread e s0
  let s2 := include_thread_pthread s1
  let s3 := include_thread_nt e s2
  let s4 := define_thread_local e s3
  let s5 := define_backend_alias s4
  Except.ok
    { includes := s5.includes
      defines := s5.defines
      staticTLS := s5.staticTLS
      declaresFused := true
      definesFused := !e.PYPY_NOT_MAIN_FILE }

/-- The lock-capable platform files among a list of included files. -/
def backends (hs : List Header) : List Header :=
  hs.filter fun h => h = Header.thread_pthread_h ∨ h = Header.thread_nt_h

/-- The platform files that thread.h makes visible for a configuration: the
ones it includes. -/
def visibleBackends (e : BuildEnv) : List Header :=
  match thread_h e with
  | Except.ok u => backends u.includes
  | Except.error _ => []

/-- Whether thread.h itself includes `<pthread.h>` for a configuration. -/
def pullsPthreadH (e : BuildEnv) : Bool :=
  match thread_h e with
  | Except.ok u => decide (Header.pthread_h ∈ u.includes)
  | Except.error _ => false

/-- Whether POSIX threads are detected on line 17: `_POSIX_THREADS` was
defined on entry, or `<pthread.h>` was included on line 13 and defined it. -/
def posixDetected (e : BuildEnv) : Bool :=
  e._POSIX_THREADS || (e.HAVE_PTHREAD_H && e.pthread_h_defines_POSIX_THREADS)

/-! ## Part 2: locks and the fused operation -/

/-- Identity of an OS thread; every primitive is run by one calling thread. -/
abbrev Thread := Nat

/-- A lock handle, the `struct RPyOpaque_ThreadLock *` argument. -/
abbrev ThreadLock := Nat

/-- The lock primitives of the platform file that is compiled in, over the
platform state `σ`. `RPyThreadReleaseLock` returns nothing.
`RPyThreadAcquireLock lock waitflag` gives the state it leaves and the `int`
it returns, or `none` in place of the `int` when the call never returns to
the caller (a blocking wait that is never served). -/
structure LockBackend (σ : Type) where
  RPyThreadReleaseLock : Thread → ThreadLock → σ → σ
  RPyThreadAcquireLock : Thread → ThreadLock → Int → σ → σ × Option Int

/-- Lines 50-54:
`RPyThreadReleaseLock(lock); RPyThreadAcquireLock(lock, 1);` in a `void`
function. The result is the state left behind and `some ()` when the function
returns (`none` when the acquire never returns). -/
def RPyThreadFusedReleaseAcquireLock {σ : Type} (B : LockBackend σ) (self : Thread)
    (lock : ThreadLock) (s : σ) : σ × Option Unit :=
  let s1 := B.RPyThreadReleaseLock self lock s
  let r := B.RPyThreadAcquireLock self lock 1 s1
  (r.1, r.2.map fun _ => ())

/-- The fused operation with other threads running while it is in progress:
the same two calls, and `others` is what the other threads do to the platform
state in the window between the release and the acquire. -/
def fusedAmongOthers {σ : Type} (B : LockBackend σ) (self : Thread)
    (lock : ThreadLock) (others : σ → σ) (s : σ) : σ × Option Unit :=
  let s1 := B.RPyThreadReleaseLock self lock s
  let r := B.RPyThreadAcquireLock self lock 1 (others s1)
  (r.1, r.2.map fun _ => ())

/-- A call of a lock primitive, as seen from outside. -/
inductive Call where
  | release (self : Thread) (lock : ThreadLock)
  | acquire (self : Thread) (lock : ThreadLock) (waitflag : Int)
  deriving DecidableEq

/-- A platform that also keeps a log of every call of its lock primitives, in
the order in which they are issued. -/
def recording {σ : Type} (B : LockBackend σ) : LockBackend (σ × List Call) where
  RPyThreadReleaseLock self lock s :=
    (B.RPyThreadReleaseLock self lock s.1, s.2 ++ [Call.release self lock])
  RPyThreadAcquireLock self lock waitflag s :=
    let r := B.RPyThreadAcquireLock self lock waitflag s.1
    ((r.1, s.2 ++ [Call.acquire self lock waitflag]), r.2)

/-- Who holds each lock: `none` is free. -/
abbrev LockTable := ThreadLock → Option Thread

/-- Modelled from the spec: the lock primitives of the platform files
thread_pthread.h and thread_nt.h, which are not in the header. Section 4.1:
ReleaseLock marks the lock free (and checks nothing); AcquireLock on a free
lock marks it held and reports success; on a held lock it blocks when the wait
flag asks for it and otherwise reports failure at once. With no other thread
running, a blocked call never returns. -/
def specLocks : LockBackend LockTable where
  RPyThreadReleaseLock _ lock s := Function.update s lock none
  RPyThreadAcquireLock self lock waitflag s :=
    match s lock with
    | none => (Function.update s lock (some self), some 1)
    | some _ => if waitflag ≠ 0 then (s, none) else (s, some 0)

/-! ## Part 3: static thread-local storage -/

/-- A `void *` value; `NULL` is 0. -/
abbrev Ptr := Nat

/-- The null pointer. -/
def NULL : Ptr := 0

/-- Names a static thread-local slot: the `tls` variable of lines 28-30, the
`key` of lines 37-39. -/
abbrev Slot := Nat

/-- All `__thread void *` variables of the program: one cell per variable and
per thread. -/
abbrev TLVars := Slot → Thread → Ptr

/-- The key primitives of the platform file that is compiled in, over the
platform state `κ`. `RPyThreadTLS_Create` gives the new state and the
`char *` it returns (`none` is NULL: no failure). -/
structure TLSBackend (κ : Type) where
  RPyThreadTLS_Create : Slot → κ → κ × Option String
  RPyThreadTLS_Get : Thread → Slot → κ → Ptr
  RPyThreadTLS_Set : Thread → Slot → Ptr → κ → κ

/-- The part of the program state that static thread-local storage can touch:
the `__thread` variables and the state of the platform file. -/
structure World (κ : Type) where
  vars : TLVars
  backend : κ

/-- Line 28: `#define RPyThreadStaticTLS_Create(tls) NULL`;
line 37: `#define RPyThreadStaticTLS_Create(key) RPyThreadTLS_Create(key)`. -/
def RPyThreadStaticTLS_Create {κ : Type} (impl : StaticTLS) (B : TLSBackend κ)
    (key : Slot) (w : World κ) : World κ × Option String :=
  match impl with
  | StaticTLS.thread_local => (w, none)
  | StaticTLS.backend_alias =>
    let r := B.RPyThreadTLS_Create key w.backend
    ({ w with backend := r.1 }, r.2)

/-- Line 29: `#define RPyThreadStaticTLS_Get(tls) tls`;
line 38: `#define RPyThreadStaticTLS_Get(key) RPyThreadTLS_Get(key)`. -/
def RPyThreadStaticTLS_Get {κ : Type} (impl : StaticTLS) (B : TLSBackend κ)
    (self : Thread) (key : Slot) (w : World κ) : Ptr :=
  match impl with
  | StaticTLS.thread_local => w.vars key self
  | StaticTLS.backend_alias => B.RPyThreadTLS_Get self key w.backend

/-- Line 30: `#define RPyThreadStaticTLS_Set(tls, value) tls = value`;
line 39: `#define RPyThreadStaticTLS_Set(key, value) RPyThreadTLS_Set(key, value)`. -/
def RPyThreadStaticTLS_Set {κ : Type} (impl : StaticTLS) (B : TLSBackend κ)
    (self : Thread) (key : Slot) (value : Ptr) (w : World κ) : World κ :=
  match impl with
  | StaticTLS.thread_local =>
    { w with vars := Function.update w.vars key (Function.update (w.vars key) self value) }
  | StaticTLS.backend_alias =>
    { w with backend := B.RPyThreadTLS_Set self key value w.backend }

/-- The section 4.1 contract of the key primitives, for one platform file:
a Get sees the last Set of the same thread on the slot, a Set leaves the other
threads alone, and a slot that was just created reads as NULL in every
thread. -/
structure TLSBackend.Lawful {κ : Type} (B : TLSBackend κ) : Prop where
  get_set_self : ∀ t k v s, B.RPyThreadTLS_Get t k (B.RPyThreadTLS_Set t k v s) = v
  get_set_other : ∀ t u k v s, u ≠ t →
    B.RPyThreadTLS_Get u k (B.RPyThreadTLS_Set t k v s) = B.RPyThreadTLS_Get u k s
  get_create : ∀ t k s, (B.RPyThreadTLS_Create k s).2 = none →
    B.RPyThreadTLS_Get t k (B.RPyThreadTLS_Create k s).1 = NULL

/-- Modelled from the spec: the key primitives of the platform files
thread_pthread.h and thread_nt.h, which are not in the header. Section 4.1:
Create initialises a fresh slot (no thread has a value in it) and reports no
failure, Get reads the calling thread's value, Set writes it. -/
def specKeys : TLSBackend TLVars where
  RPyThreadTLS_Create k s := (Function.update s k (fun _ => NULL), none)
  RPyThreadTLS_Get t k s := s k t
  RPyThreadTLS_Set t k v s := Function.update s k (Function.update (s k) t v)

/-- One operation of a client on a static slot. -/
inductive TLSOp where
  | create
  | set (self : Thread) (value : Ptr)
  | get (self : Thread)
  deriving DecidableEq

/-- The state after a client operation on slot `key`. -/
def step {κ : Type} (impl : StaticTLS) (B : TLSBackend κ) (key : Slot)
    (w : World κ) : TLSOp → World κ
  | TLSOp.create => (RPyThreadStaticTLS_Create impl B key w).1
  | TLSOp.set t v => RPyThreadStaticTLS_Set impl B t key v w
  | TLSOp.get _ => w

/-- The state after a sequence of client operations on slot `key`. -/
def run {κ : Type} (impl : StaticTLS) (B : TLSBackend κ) (key : Slot) :
    List TLSOp → World κ → World κ
  | [], w => w
  | op :: ops, w => run impl B key ops (step impl B key w op)

/-- The values returned by the Get operations of a sequence, in order. -/
def observe {κ : Type} (impl : StaticTLS) (B : TLSBackend κ) (key : Slot) :
    List TLSOp → World κ → List Ptr
  | [], _ => []
  | TLSOp.get t :: ops, w =>
    RPyThreadStaticTLS_Get impl B t key w :: observe impl B key ops w
  | op :: ops, w => observe impl B key ops (step impl B key w op)

/-- The state of the platform file after a sequence of client operations on
slot `key` issued straight to its key primitives. -/
def runKeys {κ : Type} (B : TLSBackend κ) (key : Slot) : List TLSOp → κ → κ
  | [], s => s
  | TLSOp.create :: ops, s => runKeys B key ops (B.RPyThreadTLS_Create key s).1
  | TLSOp.set t v :: ops, s => runKeys B key ops (B.RPyThreadTLS_Set t key v s)
  | TLSOp.get _ :: ops, s => runKeys B key ops s

/-- Modelled from the spec: key primitives of a platform file (not in the
header) that creates a slot once (section 3: "Created once (lazily or
explicitly)"). Create of a slot that does not exist yet initialises it with
no value in any thread; Create of a slot that exists keeps it; Get reads the
calling thread's value, NULL if there is none; Set writes it, and stores
nothing in a slot that was never created. -/
def lazyKeys : TLSBackend (Slot → Option (Thread → Ptr)) where
  RPyThreadTLS_Create k s :=
    match s k with
    | some _ => (s, none)
    | none => (Function.update s k (some fun _ => NULL), none)
  RPyThreadTLS_Get t k s :=
    match s k with
    | some f => f t
    | none => NULL
  RPyThreadTLS_Set t k v s :=
    match s k with
    | some f => Function.update s k (some (Function.update f t v))
    | none => s

/-- The operation is a Set issued by thread `t`. -/
def TLSOp.isSetBy (t : Thread) : TLSOp → Bool
  | TLSOp.set u _ => decide (u = t)
  | _ => false

/-- The operation is a Create. -/
def TLSOp.isCreate : TLSOp → Bool
  | TLSOp.create => true
  | _ => false

/-- Program start: no thread has stored anything in its copy of the variable
(static storage is zero-initialised). -/
def freshVars : TLVars := fun _ _ => NULL

/-! ## Configurations used as concrete inputs -/

/-- No tested symbol is defined. -/
def bareEnv : BuildEnv :=
  { _POSIX_THREADS := false, HAVE_PTHREAD_H := false, NT_THREADS := false,
    USE___THREAD := false, RPyThreadStaticTLS := false, PYPY_NOT_MAIN_FILE := false,
    pthread_h_defines_POSIX_THREADS := false }

/-- Both `_POSIX_THREADS` and `NT_THREADS` are defined on entry. -/
def posixAndNtEnv : BuildEnv := { bareEnv with _POSIX_THREADS := true, NT_THREADS := true }

/-- Only `HAVE_PTHREAD_H` is defined, and the `<pthread.h>` of the system does
not define `_POSIX_THREADS`. -/
def silentPthreadEnv : BuildEnv := { bareEnv with HAVE_PTHREAD_H := true }

/-- Only `HAVE_PTHREAD_H` is defined, and the `<pthread.h>` of the system
defines `_POSIX_THREADS` (a pthread emulation library). -/
def emulatedPthreadEnv : BuildEnv :=
  { bareEnv with HAVE_PTHREAD_H := true, pthread_h_defines_POSIX_THREADS := true }

/-- Which definition of the `RPyThreadStaticTLS*` names the header makes for a
configuration (`none`: it makes none and leaves an earlier definition of
`RPyThreadStaticTLS` in force). -/
def staticTLSOf (e : BuildEnv) : Option StaticTLS :=
  match thread_h e with
  | Except.ok u => u.staticTLS
  | Except.error _ => none

/-- The names that the header itself defines with `#define`, in order. -/
def definedNames (e : BuildEnv) : List String :=
  match thread_h e with
  | Except.ok u => u.defines
  | Except.error _ => []

/-- Whether the header declares (line 47) and defines (lines 49-55) the fused
function for a configuration. -/
def fusedOf (e : BuildEnv) : Bool × Bool :=
  match thread_h e with
  | Except.ok u => (u.declaresFused, u.definesFused)
  | Except.error _ => (false, false)

/-- Program start for the spec-modelled key primitives: nothing is stored
anywhere. -/
def freshWorld : World TLVars := { vars := freshVars, backend := freshVars }

/-- Program start for `lazyKeys`: no slot exists. -/
def lazyWorld : World (Slot → Option (Thread → Ptr)) :=
  { vars := freshVars, backend := fun _ => none }

/-- A lock table in which thread 1 holds lock 0, thread 2 holds lock 5 and
every other lock is free. -/
def oneHoldsZero : LockTable := fun l => if l = 0 then some 1 else if l = 5 then some 2 else none

/-! ## Theorems: platform selection -/

/-- The platform files that the header makes visible are `thread_pthread.h`
when POSIX threads are detected followed by `thread_nt.h` when `NT_THREADS` is
defined. -/
theorem visibleBackends_eq (e : BuildEnv) :
    visibleBackends e =
      (if posixDetected e then [Header.thread_pthread_h] else []) ++
      (if e.NT_THREADS then [Header.thread_nt_h] else []) := by
  rcases e with ⟨a, b, c, d, f, g, h⟩
  cases a <;> cases b <;> cases c <;> cases d <;> cases f <;> cases g <;> cases h <;> rfl

/-- C5 (as stated) fails: with both `_POSIX_THREADS` and `NT_THREADS` defined
the Windows file `thread_nt.h` is included as well, although POSIX threads were
detected. -/
theorem C5_nt_selected_with_posix :
    posixAndNtEnv._POSIX_THREADS = true ∧ posixAndNtEnv.NT_THREADS = true ∧
    decide (Header.thread_nt_h ∈ visibleBackends posixAndNtEnv) = true ∧
    decide (Header.thread_pthread_h ∈ visibleBackends posixAndNtEnv) = true := by
  decide

/-- C5 (amended): whenever `_POSIX_THREADS` is defined on entry the POSIX file
is made visible, first in order; the Windows file is made visible exactly when
`NT_THREADS` is defined, whether or not POSIX threads were detected, and it
comes after the POSIX file when both are visible. -/
theorem C5_selection_is_independent (e : BuildEnv) :
    visibleBackends { e with _POSIX_THREADS := true } =
      Header.thread_pthread_h :: (if e.NT_THREADS then [Header.thread_nt_h] else []) ∧
    decide (Header.thread_nt_h ∈ visibleBackends e) = e.NT_THREADS ∧
    decide (Header.thread_pthread_h ∈ visibleBackends e) = posixDetected e ∧
    visibleBackends { e with NT_THREADS := true } =
      (if posixDetected e then [Header.thread_pthread_h] else []) ++ [Header.thread_nt_h] := by
  rcases e with ⟨a, b, c, d, f, g, h⟩
  cases a <;> cases b <;> cases c <;> cases d <;> cases f <;> cases g <;> cases h <;> decide

/-- C6 (as stated) fails: with `HAVE_PTHREAD_H` defined and a `<pthread.h>`
that does not define `_POSIX_THREADS`, the header includes `<pthread.h>` and
then finds `_POSIX_THREADS` still undefined on line 17, so the POSIX file is
not made visible (it is when that `<pthread.h>` defines `_POSIX_THREADS`). -/
theorem C6_silent_pthread_h_selects_nothing :
    silentPthreadEnv.HAVE_PTHREAD_H = true ∧
    pullsPthreadH silentPthreadEnv = true ∧
    decide (Header.thread_pthread_h ∈ visibleBackends silentPthreadEnv) = false ∧
    visibleBackends silentPthreadEnv = [] ∧
    visibleBackends emulatedPthreadEnv = [Header.thread_pthread_h] := by
  decide

/-- C6 (amended): the POSIX file is made visible exactly when `_POSIX_THREADS`
is defined on entry, or `HAVE_PTHREAD_H` is defined and the `<pthread.h>` that
is then included defines `_POSIX_THREADS`; and the header itself includes
`<pthread.h>` exactly when `HAVE_PTHREAD_H` is defined and `_POSIX_THREADS` was
not defined on entry. -/
theorem C6_posix_detection (e : BuildEnv) :
    decide (Header.thread_pthread_h ∈ visibleBackends e) =
      (e._POSIX_THREADS || (e.HAVE_PTHREAD_H && e.pthread_h_defines_POSIX_THREADS)) ∧
    pullsPthreadH e = (e.HAVE_PTHREAD_H && !e._POSIX_THREADS) ∧
    decide (Header.thread_pthread_h ∈ visibleBackends { e with _POSIX_THREADS := true }) = true ∧
    decide (Header.thread_pthread_h ∈ visibleBackends
      { e with HAVE_PTHREAD_H := true, pthread_h_defines_POSIX_THREADS := true }) = true := by
  rcases e with ⟨a, b, c, d, f, g, h⟩
  cases a <;> cases b <;> cases c <;> cases d <;> cases f <;> cases g <;> cases h <;> decide

/-- The fused function is declared for every configuration and defined exactly
when `PYPY_NOT_MAIN_FILE` is not defined. -/
theorem fused_defined_in_main_file_only (e : BuildEnv) :
    fusedOf e = (true, !e.PYPY_NOT_MAIN_FILE) := rfl

/-- The header makes the `__thread` definition of the static names exactly
when `USE___THREAD` is defined, the platform definition exactly when neither
`USE___THREAD` nor `RPyThreadStaticTLS` is defined, and none otherwise. -/
theorem staticTLSOf_eq (e : BuildEnv) :
    staticTLSOf e =
      (if e.USE___THREAD then some StaticTLS.thread_local
       else if e.RPyThreadStaticTLS then none
       else some StaticTLS.backend_alias) := by
  rcases e with ⟨a, b, c, d, f, g, h⟩
  cases a <;> cases b <;> cases c <;> cases d <;> cases f <;> cases g <;> cases h <;> rfl

/-! ## Theorems: the fused operation -/

/-- C1: over every platform, for every calling thread, lock handle and state,
the fused operation leaves the state that `RPyThreadReleaseLock(lock)` followed
by `RPyThreadAcquireLock(lock, 1)` leaves, returns exactly when that acquire
returns, returns no value, and adds to the log of platform calls exactly the
two calls release(lock), acquire(lock, 1), in this order. -/
theorem C1_fused_is_release_then_acquire {σ : Type} (B : LockBackend σ) (self : Thread)
    (lock : ThreadLock) (s : σ) (log : List Call) :
    (RPyThreadFusedReleaseAcquireLock B self lock s).1 =
      (B.RPyThreadAcquireLock self lock 1 (B.RPyThreadReleaseLock self lock s)).1 ∧
    (RPyThreadFusedReleaseAcquireLock B self lock s).2 =
      (B.RPyThreadAcquireLock self lock 1 (B.RPyThreadReleaseLock self lock s)).2.map
        (fun _ => ()) ∧
    (RPyThreadFusedReleaseAcquireLock (recording B) self lock (s, log)).1 =
      ((RPyThreadFusedReleaseAcquireLock B self lock s).1,
        log ++ [Call.release self lock, Call.acquire self lock 1]) ∧
    (RPyThreadFusedReleaseAcquireLock (recording B) self lock (s, log)).2 =
      (RPyThreadFusedReleaseAcquireLock B self lock s).2 := by
  simp [RPyThreadFusedReleaseAcquireLock, recording]

/-- C2: let `holder` read who holds each lock in the platform state, and let
the platform be such that ReleaseLock marks the lock free and touches no other
lock, and a blocking AcquireLock that returns leaves the lock held by the
caller and touches no other lock. If the caller holds `lock`, then when the
fused operation returns `lock` is held by the caller and every other lock is
held as before; if a blocking acquire of a free lock returns, the fused
operation does return; and whatever other threads do to the state between the
release and the acquire, when the operation returns `lock` is held by the
caller. A lock table gives each lock at most one holder. -/
theorem C2_fused_reacquires {σ : Type} (B : LockBackend σ) (holder : σ → LockTable)
    (self : Thread) (lock : ThreadLock) (s : σ)
    (_hheld : holder s lock = some self)
    (hrel : ∀ s, holder (B.RPyThreadReleaseLock self lock s) =
      Function.update (holder s) lock none)
    (hacq : ∀ s, (B.RPyThreadAcquireLock self lock 1 s).2.isSome = true →
      holder (B.RPyThreadAcquireLock self lock 1 s).1 =
        Function.update (holder s) lock (some self)) :
    ((RPyThreadFusedReleaseAcquireLock B self lock s).2 = some () →
      holder (RPyThreadFusedReleaseAcquireLock B self lock s).1 lock = some self ∧
      ∀ l, l ≠ lock →
        holder (RPyThreadFusedReleaseAcquireLock B self lock s).1 l = holder s l) ∧
    ((∀ s, holder s lock = none → (B.RPyThreadAcquireLock self lock 1 s).2.isSome = true) →
      (RPyThreadFusedReleaseAcquireLock B self lock s).2 = some ()) ∧
    (∀ others : σ → σ, (fusedAmongOthers B self lock others s).2 = some () →
      holder (fusedAmongOthers B self lock others s).1 lock = some self) := by
  have key : ∀ o : Option Int, o.map (fun _ => ()) = some () → o.isSome = true := by
    intro o h; cases o <;> simp_all
  refine ⟨fun hret => ?_, fun hserve => ?_, fun others hret => ?_⟩
  · have h1 := hacq (B.RPyThreadReleaseLock self lock s) (key _ hret)
    have h2 := hrel s
    refine ⟨?_, fun l hl => ?_⟩
    · show holder (B.RPyThreadAcquireLock self lock 1 (B.RPyThreadReleaseLock self lock s)).1
        lock = some self
      rw [h1]; simp
    · show holder (B.RPyThreadAcquireLock self lock 1 (B.RPyThreadReleaseLock self lock s)).1
        l = holder s l
      rw [h1, h2]; simp [Function.update, hl]
  · have hfree : holder (B.RPyThreadReleaseLock self lock s) lock = none := by
      rw [hrel s]; simp
    have h3 := hserve _ hfree
    show (B.RPyThreadAcquireLock self lock 1 (B.RPyThreadReleaseLock self lock s)).2.map
      (fun _ => ()) = some ()
    cases h : (B.RPyThreadAcquireLock self lock 1 (B.RPyThreadReleaseLock self lock s)).2 with
    | none => rw [h] at h3; simp at h3
    | some r => rfl
  · have h1 := hacq (others (B.RPyThreadReleaseLock self lock s)) (key _ hret)
    show holder (B.RPyThreadAcquireLock self lock 1
      (others (B.RPyThreadReleaseLock self lock s))).1 lock = some self
    rw [h1]; simp

/-- C2 at a concrete input: on the spec-modelled lock primitives, thread 1
holding lock 0 runs the fused operation; it returns with lock 0 held by
thread 1 and lock 5 still held by thread 2; and when thread 3 takes and gives
back lock 0 in the window, lock 0 again ends up held by thread 1. -/
theorem C2_fused_reacquires_witness :
    oneHoldsZero 0 = some 1 ∧
    (RPyThreadFusedReleaseAcquireLock specLocks 1 0 oneHoldsZero).2 = some () ∧
    (RPyThreadFusedReleaseAcquireLock specLocks 1 0 oneHoldsZero).1 0 = some 1 ∧
    (RPyThreadFusedReleaseAcquireLock specLocks 1 0 oneHoldsZero).1 5 = some 2 ∧
    (fusedAmongOthers specLocks 1 0
      (fun s => specLocks.RPyThreadReleaseLock 3 0 (specLocks.RPyThreadAcquireLock 3 0 1 s).1)
      oneHoldsZero).1 0 = some 1 := by
  have hrel : ∀ s : LockTable, id (specLocks.RPyThreadReleaseLock 1 0 s) =
      Function.update (id s) 0 none := fun _ => rfl
  have hacq : ∀ s : LockTable, (specLocks.RPyThreadAcquireLock 1 0 1 s).2.isSome = true →
      id (specLocks.RPyThreadAcquireLock 1 0 1 s).1 = Function.update (id s) 0 (some 1) := by
    intro s
    cases h : s 0 <;> simp [specLocks, h]
  have hserve : ∀ s : LockTable, id s 0 = none →
      (specLocks.RPyThreadAcquireLock 1 0 1 s).2.isSome = true := by
    intro s h
    have h0 : s 0 = none := h
    simp [specLocks, h0]
  have h := C2_fused_reacquires specLocks id 1 0 oneHoldsZero rfl hrel hacq
  have hret := h.2.1 hserve
  exact ⟨rfl, hret, (h.1 hret).1, (h.1 hret).2 5 (by decide), h.2.2 _ (by decide)⟩

/-! ## Theorems: static thread-local storage -/

/-- A Get right after a Set by the same thread reads the value that was set. -/
theorem static_get_set_self {κ : Type} (impl : StaticTLS) (B : TLSBackend κ)
    (hself : impl = StaticTLS.backend_alias →
      ∀ t k v s, B.RPyThreadTLS_Get t k (B.RPyThreadTLS_Set t k v s) = v)
    (t : Thread) (key : Slot) (v : Ptr) (w : World κ) :
    RPyThreadStaticTLS_Get impl B t key (RPyThreadStaticTLS_Set impl B t key v w) = v := by
  cases impl with
  | thread_local => simp [RPyThreadStaticTLS_Get, RPyThreadStaticTLS_Set]
  | backend_alias =>
    simp [RPyThreadStaticTLS_Get, RPyThreadStaticTLS_Set, hself rfl]

/-- A Set by one thread does not change what another thread reads. -/
theorem static_get_set_other {κ : Type} (impl : StaticTLS) (B : TLSBackend κ)
    (hother : impl = StaticTLS.backend_alias → ∀ t u k v s, u ≠ t →
      B.RPyThreadTLS_Get u k (B.RPyThreadTLS_Set t k v s) = B.RPyThreadTLS_Get u k s)
    (t u : Thread) (hne : u ≠ t) (key : Slot) (v : Ptr) (w : World κ) :
    RPyThreadStaticTLS_Get impl B u key (RPyThreadStaticTLS_Set impl B t key v w) =
      RPyThreadStaticTLS_Get impl B u key w := by
  cases impl with
  | thread_local => simp [RPyThreadStaticTLS_Get, RPyThreadStaticTLS_Set, Function.update, hne]
  | backend_alias =>
    simp [RPyThreadStaticTLS_Get, RPyThreadStaticTLS_Set, hother rfl t u key v _ hne]

/-- Operations that are neither a Create nor a Set by `t` do not change what
`t` reads. -/
theorem get_run_of_no_set {κ : Type} (impl : StaticTLS) (B : TLSBackend κ)
    (hother : impl = StaticTLS.backend_alias → ∀ t u k v s, u ≠ t →
      B.RPyThreadTLS_Get u k (B.RPyThreadTLS_Set t k v s) = B.RPyThreadTLS_Get u k s)
    (t : Thread) (key : Slot) (ops : List TLSOp)
    (hops : ∀ op ∈ ops, TLSOp.isSetBy t op = false ∧ TLSOp.isCreate op = false)
    (w : World κ) :
    RPyThreadStaticTLS_Get impl B t key (run impl B key ops w) =
      RPyThreadStaticTLS_Get impl B t key w := by
  induction ops generalizing w with
  | nil => rfl
  | cons op ops ih =>
    have hop := hops op (List.mem_cons_self _ _)
    have ih2 := ih (fun o ho => hops o (List.mem_cons_of_mem _ ho))
    cases op with
    | create => simp [TLSOp.isCreate] at hop
    | get u => simpa [run, step] using ih2 w
    | set u v =>
      have hne : t ≠ u := by
        intro h
        simp [TLSOp.isSetBy, h] at hop
      simp only [run, step]
      rw [ih2, static_get_set_other impl B hother u t hne]

/-- A slot that was just created without failure, in a program that has just
started, reads as NULL in every thread. -/
theorem get_create_fresh {κ : Type} (impl : StaticTLS) (B : TLSBackend κ)
    (hcreate : impl = StaticTLS.backend_alias → ∀ t k s,
      (B.RPyThreadTLS_Create k s).2 = none →
      B.RPyThreadTLS_Get t k (B.RPyThreadTLS_Create k s).1 = NULL)
    (key : Slot) (w : World κ) (hstart : ∀ t, w.vars key t = NULL)
    (hok : (RPyThreadStaticTLS_Create impl B key w).2 = none) (t : Thread) :
    RPyThreadStaticTLS_Get impl B t key (RPyThreadStaticTLS_Create impl B key w).1 = NULL := by
  cases impl with
  | thread_local => simpa [RPyThreadStaticTLS_Get, RPyThreadStaticTLS_Create] using hstart t
  | backend_alias =>
    simp only [RPyThreadStaticTLS_Get, RPyThreadStaticTLS_Create] at hok ⊢
    exact hcreate rfl t key w.backend hok

/-- The spec-modelled key primitives satisfy the section 4.1 contract. -/
theorem specKeys_lawful : specKeys.Lawful := by
  refine ⟨?_, ?_, ?_⟩
  · intro t k v s
    simp [specKeys]
  · intro t u k v s hne
    simp [specKeys, Function.update, hne]
  · intro t k s _
    simp [specKeys]

/-- After a Create that reports no failure, both definitions of the static
names return the same values to every following sequence of Set and Get. -/
theorem observe_agree {κ : Type} (B : TLSBackend κ) (hB : B.Lawful) (key : Slot)
    (ops : List TLSOp) (hops : ∀ op ∈ ops, TLSOp.isCreate op = false)
    (w1 w2 : World κ)
    (hinv : ∀ t, RPyThreadStaticTLS_Get StaticTLS.thread_local B t key w1 =
      RPyThreadStaticTLS_Get StaticTLS.backend_alias B t key w2) :
    observe StaticTLS.thread_local B key ops w1 =
      observe StaticTLS.backend_alias B key ops w2 := by
  induction ops generalizing w1 w2 with
  | nil => rfl
  | cons op ops ih =>
    have hop := hops op (List.mem_cons_self _ _)
    have ih2 := ih (fun o ho => hops o (List.mem_cons_of_mem _ ho))
    cases op with
    | create => simp [TLSOp.isCreate] at hop
    | get u =>
      simp only [observe]
      rw [hinv u, ih2 w1 w2 hinv]
    | set u v =>
      simp only [observe, step]
      apply ih2
      intro t
      by_cases h : t = u
      · subst h
        rw [static_get_set_self StaticTLS.thread_local B (fun h => by cases h),
          static_get_set_self StaticTLS.backend_alias B (fun _ => hB.get_set_self)]
      · rw [static_get_set_other StaticTLS.thread_local B (fun h => by cases h) u t h,
          static_get_set_other StaticTLS.backend_alias B (fun _ => hB.get_set_other) u t h]
        exact hinv t

/-- With the platform definition, running client operations on the static
names is running them on the key primitives of the platform file: every
argument is handed on unchanged (lines 36-39). -/
theorem run_backend_alias {κ : Type} (B : TLSBackend κ) (key : Slot) (ops : List TLSOp)
    (w : World κ) :
    run StaticTLS.backend_alias B key ops w =
      { w with backend := runKeys B key ops w.backend } := by
  induction ops generalizing w with
  | nil => rfl
  | cons op ops ih =>
    cases op with
    | create => simp only [run, step, runKeys, ih, RPyThreadStaticTLS_Create]
    | set u x => simp only [run, step, runKeys, ih, RPyThreadStaticTLS_Set]
    | get u => simp only [run, step, runKeys, ih]

/-- With the `__thread` definition, operations without a Set by `t` (Creates
included) do not change what `t` reads. -/
theorem thread_local_get_run {κ : Type} (B : TLSBackend κ) (t : Thread) (key : Slot)
    (ops : List TLSOp) (hops : ∀ op ∈ ops, TLSOp.isSetBy t op = false) (w : World κ) :
    RPyThreadStaticTLS_Get StaticTLS.thread_local B t key
      (run StaticTLS.thread_local B key ops w) =
      RPyThreadStaticTLS_Get StaticTLS.thread_local B t key w := by
  induction ops generalizing w with
  | nil => rfl
  | cons op ops ih =>
    have hop := hops op (List.mem_cons_self _ _)
    have ih2 := ih (fun o ho => hops o (List.mem_cons_of_mem _ ho))
    cases op with
    | create => simpa [run, step, RPyThreadStaticTLS_Create] using ih2 w
    | get u => simpa [run, step] using ih2 w
    | set u v =>
      have hne : t ≠ u := by
        intro h
        simp [TLSOp.isSetBy, h] at hop
      simp only [run, step]
      rw [ih2, static_get_set_other StaticTLS.thread_local B (fun h => by cases h) u t hne]

/-- The spec-modelled key primitives satisfy the round-trip law of C7 when the
operations between the Set and the Get hold no Set by `t` and no Create. -/
theorem specKeys_round_trip (t : Thread) (key : Slot) (v : Ptr) (s : TLVars)
    (between : List TLSOp)
    (hbetween : ∀ op ∈ between,
      (!TLSOp.isSetBy t op && !TLSOp.isCreate op) = true) :
    specKeys.RPyThreadTLS_Get t key
      (runKeys specKeys key between
        (specKeys.RPyThreadTLS_Set t key v (specKeys.RPyThreadTLS_Create key s).1)) = v := by
  have hb : ∀ op ∈ between, TLSOp.isSetBy t op = false ∧ TLSOp.isCreate op = false := by
    intro op hop
    simpa using hbetween op hop
  have h := get_run_of_no_set StaticTLS.backend_alias specKeys
    (fun _ => specKeys_lawful.get_set_other) t key between hb
    { vars := freshVars,
      backend := specKeys.RPyThreadTLS_Set t key v (specKeys.RPyThreadTLS_Create key s).1 }
  rw [run_backend_alias] at h
  simp only [RPyThreadStaticTLS_Get] at h
  rw [h]
  exact specKeys_lawful.get_set_self t key v _

/-- On `lazyKeys`, once the slot exists and holds `v` for `t`, operations
without a Set by `t` (Creates included) keep it so. -/
theorem lazyKeys_keeps (t : Thread) (key : Slot) (v : Ptr) (between : List TLSOp)
    (hbetween : ∀ op ∈ between, TLSOp.isSetBy t op = false)
    (s : Slot → Option (Thread → Ptr)) (hs : ∃ f, s key = some f ∧ f t = v) :
    lazyKeys.RPyThreadTLS_Get t key (runKeys lazyKeys key between s) = v := by
  induction between generalizing s with
  | nil =>
    obtain ⟨f, hf, hv⟩ := hs
    simp [runKeys, lazyKeys, hf, hv]
  | cons op ops ih =>
    have hop := hbetween op (List.mem_cons_self _ _)
    have ih2 := ih (fun o ho => hbetween o (List.mem_cons_of_mem _ ho))
    obtain ⟨f, hf, hv⟩ := hs
    cases op with
    | create =>
      simp only [runKeys]
      apply ih2
      exact ⟨f, by simp [lazyKeys, hf], hv⟩
    | get u =>
      simp only [runKeys]
      exact ih2 s ⟨f, hf, hv⟩
    | set u x =>
      have hne : t ≠ u := by
        intro h
        simp [TLSOp.isSetBy, h] at hop
      simp only [runKeys]
      apply ih2
      exact ⟨Function.update f u x, by simp [lazyKeys, hf], by simp [Function.update, hne, hv]⟩

/-- The key primitives `lazyKeys` satisfy the round-trip law of C7 with the
claim's own side condition: no Set by `t` between the Set and the Get. -/
theorem lazyKeys_round_trip (t : Thread) (key : Slot) (v : Ptr)
    (s : Slot → Option (Thread → Ptr)) (between : List TLSOp)
    (hbetween : ∀ op ∈ between, (!TLSOp.isSetBy t op) = true) :
    lazyKeys.RPyThreadTLS_Get t key
      (runKeys lazyKeys key between
        (lazyKeys.RPyThreadTLS_Set t key v (lazyKeys.RPyThreadTLS_Create key s).1)) = v := by
  apply lazyKeys_keeps t key v between (fun op hop => by simpa using hbetween op hop)
  cases h : s key with
  | none => exact ⟨Function.update (fun _ => NULL) t v, by simp [lazyKeys, h], by simp⟩
  | some f => exact ⟨Function.update f t v, by simp [lazyKeys, h], by simp⟩

/-- C7: take a slot, a thread `t` and any class `allowed` of operations that
holds no Set by `t` (in particular the class of all operations other than a
Set by `t`). With the `__thread` definition of the static names, and with the
platform definition over every platform whose `RPyThreadTLS_Create/Set/Get`
satisfy this same law, the following holds for every value `v`, NULL
included: after `RPyThreadStaticTLS_Create` on the slot, then
`RPyThreadStaticTLS_Set(slot, v)` by `t`, then any allowed operations,
`RPyThreadStaticTLS_Get(slot)` by `t` yields `v`. -/
theorem C7_round_trip {κ : Type} (impl : StaticTLS) (B : TLSBackend κ)
    (key : Slot) (t : Thread) (allowed : TLSOp → Bool)
    (hallowed : ∀ op, allowed op = true → TLSOp.isSetBy t op = false)
    (hlaw : impl = StaticTLS.backend_alias →
      ∀ (v : Ptr) (s : κ) (between : List TLSOp), (∀ op ∈ between, allowed op = true) →
        B.RPyThreadTLS_Get t key
          (runKeys B key between
            (B.RPyThreadTLS_Set t key v (B.RPyThreadTLS_Create key s).1)) = v)
    (v : Ptr) (w : World κ) (between : List TLSOp)
    (hbetween : ∀ op ∈ between, allowed op = true) :
    RPyThreadStaticTLS_Get impl B t key
      (run impl B key between
        (RPyThreadStaticTLS_Set impl B t key v (RPyThreadStaticTLS_Create impl B key w).1)) = v := by
  cases impl with
  | thread_local =>
    rw [thread_local_get_run B t key between (fun op hop => hallowed op (hbetween op hop)),
      static_get_set_self StaticTLS.thread_local B (fun h => by cases h)]
  | backend_alias =>
    rw [run_backend_alias]
    exact hlaw rfl v w.backend between hbetween

/-- C7 at concrete inputs, slot 0 and thread 1. On the spec-modelled key
primitives (no Create in between): thread 1 stores NULL after Create,
thread 2 stores 9 and reads, and thread 1 reads NULL. With the `__thread`
definition and on `lazyKeys` (anything but a Set by thread 1 in between):
thread 1 stores 7 after Create, thread 2 stores 9, the slot is created again,
and thread 1 reads 7. -/
theorem C7_round_trip_witness :
    RPyThreadStaticTLS_Get StaticTLS.backend_alias specKeys 1 0
      (run StaticTLS.backend_alias specKeys 0 [TLSOp.set 2 9, TLSOp.get 2]
        (RPyThreadStaticTLS_Set StaticTLS.backend_alias specKeys 1 0 NULL
          (RPyThreadStaticTLS_Create StaticTLS.backend_alias specKeys 0 freshWorld).1)) = NULL ∧
    RPyThreadStaticTLS_Get StaticTLS.thread_local specKeys 1 0
      (run StaticTLS.thread_local specKeys 0 [TLSOp.set 2 9, TLSOp.create, TLSOp.get 1]
        (RPyThreadStaticTLS_Set StaticTLS.thread_local specKeys 1 0 7
          (RPyThreadStaticTLS_Create StaticTLS.thread_local specKeys 0 freshWorld).1)) = 7 ∧
    RPyThreadStaticTLS_Get StaticTLS.backend_alias lazyKeys 1 0
      (run StaticTLS.backend_alias lazyKeys 0 [TLSOp.set 2 9, TLSOp.create, TLSOp.get 1]
        (RPyThreadStaticTLS_Set StaticTLS.backend_alias lazyKeys 1 0 7
          (RPyThreadStaticTLS_Create StaticTLS.backend_alias lazyKeys 0 lazyWorld).1)) = 7 :=
  ⟨C7_round_trip StaticTLS.backend_alias specKeys 0 1
      (fun op => !TLSOp.isSetBy 1 op && !TLSOp.isCreate op)
      (fun op h => by cases op <;> simp_all [TLSOp.isSetBy, TLSOp.isCreate])
      (fun _ v s between hb => specKeys_round_trip 1 0 v s between hb)
      NULL freshWorld [TLSOp.set 2 9, TLSOp.get 2] (by decide),
   C7_round_trip StaticTLS.thread_local specKeys 0 1
      (fun op => !TLSOp.isSetBy 1 op)
      (fun op h => by simpa using h)
      (fun h => by cases h)
      7 freshWorld [TLSOp.set 2 9, TLSOp.create, TLSOp.get 1] (by decide),
   C7_round_trip StaticTLS.backend_alias lazyKeys 0 1
      (fun op => !TLSOp.isSetBy 1 op)
      (fun op h => by simpa using h)
      (fun _ v s between hb => lazyKeys_round_trip 1 0 v s between hb)
      7 lazyWorld [TLSOp.set 2 9, TLSOp.create, TLSOp.get 1] (by decide)⟩

/-- C8 (as stated) fails at v = NULL: thread 1 sets NULL, thread 2 has never
set anything, and thread 2 reads NULL, which is the very value `v` that
thread 1 stored (with either definition of the static names). -/
theorem C8_other_thread_reads_v_when_v_is_null :
    RPyThreadStaticTLS_Get StaticTLS.thread_local specKeys 2 0
      (RPyThreadStaticTLS_Set StaticTLS.thread_local specKeys 1 0 NULL
        (RPyThreadStaticTLS_Create StaticTLS.thread_local specKeys 0 freshWorld).1) = NULL ∧
    RPyThreadStaticTLS_Get StaticTLS.backend_alias specKeys 2 0
      (RPyThreadStaticTLS_Set StaticTLS.backend_alias specKeys 1 0 NULL
        (RPyThreadStaticTLS_Create StaticTLS.backend_alias specKeys 0 freshWorld).1) = NULL := by
  decide

/-- C8 (amended): with either definition of the static names (for the platform
one: over every platform that satisfies the section 4.1 contract), in a
program that has just started and created the slot without failure, let
threads other than `t2` do any Sets and Gets and let `t1` then set `v`. Then
`t1` reads `v`, `t2` reads NULL, and so `t2` reads something other than `v`
whenever `v` is not NULL. In every state a Set by one thread leaves what every
other thread reads unchanged, and after `t1` sets `a` and `t2` sets `b`, `t1`
reads `a` and `t2` reads `b`. -/
theorem C8_thread_isolation {κ : Type} (impl : StaticTLS) (B : TLSBackend κ)
    (hB : impl = StaticTLS.backend_alias → B.Lawful)
    (key : Slot) (t1 t2 : Thread) (hne : t1 ≠ t2) (v : Ptr) (w0 : World κ)
    (hstart : ∀ t, w0.vars key t = NULL)
    (hok : (RPyThreadStaticTLS_Create impl B key w0).2 = none)
    (before : List TLSOp)
    (hbefore : ∀ op ∈ before, TLSOp.isSetBy t2 op = false ∧ TLSOp.isCreate op = false) :
    RPyThreadStaticTLS_Get impl B t1 key
      (RPyThreadStaticTLS_Set impl B t1 key v
        (run impl B key before (RPyThreadStaticTLS_Create impl B key w0).1)) = v ∧
    RPyThreadStaticTLS_Get impl B t2 key
      (RPyThreadStaticTLS_Set impl B t1 key v
        (run impl B key before (RPyThreadStaticTLS_Create impl B key w0).1)) = NULL ∧
    (v ≠ NULL →
      RPyThreadStaticTLS_Get impl B t2 key
        (RPyThreadStaticTLS_Set impl B t1 key v
          (run impl B key before (RPyThreadStaticTLS_Create impl B key w0).1)) ≠ v) ∧
    (∀ (t u : Thread) (x : Ptr) (w : World κ), u ≠ t →
      RPyThreadStaticTLS_Get impl B u key (RPyThreadStaticTLS_Set impl B t key x w) =
        RPyThreadStaticTLS_Get impl B u key w) ∧
    (∀ (a b : Ptr) (w : World κ),
      RPyThreadStaticTLS_Get impl B t1 key
        (RPyThreadStaticTLS_Set impl B t2 key b (RPyThreadStaticTLS_Set impl B t1 key a w)) = a ∧
      RPyThreadStaticTLS_Get impl B t2 key
        (RPyThreadStaticTLS_Set impl B t2 key b (RPyThreadStaticTLS_Set impl B t1 key a w)) = b) := by
  have hself : impl = StaticTLS.backend_alias →
      ∀ t k v s, B.RPyThreadTLS_Get t k (B.RPyThreadTLS_Set t k v s) = v :=
    fun h => (hB h).get_set_self
  have hother : impl = StaticTLS.backend_alias → ∀ t u k v s, u ≠ t →
      B.RPyThreadTLS_Get u k (B.RPyThreadTLS_Set t k v s) = B.RPyThreadTLS_Get u k s :=
    fun h => (hB h).get_set_other
  have hcreate : impl = StaticTLS.backend_alias → ∀ t k s,
      (B.RPyThreadTLS_Create k s).2 = none →
      B.RPyThreadTLS_Get t k (B.RPyThreadTLS_Create k s).1 = NULL :=
    fun h => (hB h).get_create
  have h2 : RPyThreadStaticTLS_Get impl B t2 key
      (RPyThreadStaticTLS_Set impl B t1 key v
        (run impl B key before (RPyThreadStaticTLS_Create impl B key w0).1)) = NULL := by
    rw [static_get_set_other impl B hother t1 t2 (Ne.symm hne),
      get_run_of_no_set impl B hother t2 key before hbefore,
      get_create_fresh impl B hcreate key w0 hstart hok]
  refine ⟨static_get_set_self impl B hself t1 key v _, h2, fun hv => ?_, ?_, ?_⟩
  · rw [h2]; exact Ne.symm hv
  · intro t u x w hut
    exact static_get_set_other impl B hother t u hut key x w
  · intro a b w
    constructor
    · rw [static_get_set_other impl B hother t2 t1 hne, static_get_set_self impl B hself]
    · rw [static_get_set_self impl B hself]

/-- C8 at a concrete input: on the spec-modelled key primitives, after Create
thread 3 sets 4, then thread 1 sets 7; thread 1 reads 7 and thread 2, which
never set anything, reads NULL; and after thread 2 sets 9, thread 1 reads 7
and thread 2 reads 9. -/
theorem C8_thread_isolation_witness :
    RPyThreadStaticTLS_Get StaticTLS.backend_alias specKeys 1 0
      (RPyThreadStaticTLS_Set StaticTLS.backend_alias specKeys 1 0 7
        (run StaticTLS.backend_alias specKeys 0 [TLSOp.set 3 4]
          (RPyThreadStaticTLS_Create StaticTLS.backend_alias specKeys 0 freshWorld).1)) = 7 ∧
    RPyThreadStaticTLS_Get StaticTLS.backend_alias specKeys 2 0
      (RPyThreadStaticTLS_Set StaticTLS.backend_alias specKeys 1 0 7
        (run StaticTLS.backend_alias specKeys 0 [TLSOp.set 3 4]
          (RPyThreadStaticTLS_Create StaticTLS.backend_alias specKeys 0 freshWorld).1)) = NULL ∧
    RPyThreadStaticTLS_Get StaticTLS.backend_alias specKeys 1 0
      (RPyThreadStaticTLS_Set StaticTLS.backend_alias specKeys 2 0 9
        (RPyThreadStaticTLS_Set StaticTLS.backend_alias specKeys 1 0 7 freshWorld)) = 7 ∧
    RPyThreadStaticTLS_Get StaticTLS.backend_alias specKeys 2 0
      (RPyThreadStaticTLS_Set StaticTLS.backend_alias specKeys 2 0 9
        (RPyThreadStaticTLS_Set StaticTLS.backend_alias specKeys 1 0 7 freshWorld)) = 9 := by
  have h := C8_thread_isolation StaticTLS.backend_alias specKeys (fun _ => specKeys_lawful)
    0 1 2 (by decide) 7 freshWorld (fun _ => rfl) rfl [TLSOp.set 3 4] (by decide)
  exact ⟨h.1, h.2.1, (h.2.2.2.2 7 9 freshWorld).1, (h.2.2.2.2 7 9 freshWorld).2⟩

/-- C9: whenever `USE___THREAD` is defined the header defines the static names
on top of a `__thread` variable, and with that definition
`RPyThreadStaticTLS_Create(tls)` is NULL (no failure) for every slot variable
and every state, its value does not depend on the state, it leaves the state
as it was, and a Get right after it reads what the thread would have read
before it. -/
theorem C9_create_is_a_noop {κ : Type} (B : TLSBackend κ) (tls : Slot) (w w2 : World κ)
    (t : Thread) (e : BuildEnv) :
    staticTLSOf { e with USE___THREAD := true } = some StaticTLS.thread_local ∧
    (RPyThreadStaticTLS_Create StaticTLS.thread_local B tls w).2 = none ∧
    (RPyThreadStaticTLS_Create StaticTLS.thread_local B tls w).2 =
      (RPyThreadStaticTLS_Create StaticTLS.thread_local B tls w2).2 ∧
    (RPyThreadStaticTLS_Create StaticTLS.thread_local B tls w).1 = w ∧
    RPyThreadStaticTLS_Get StaticTLS.thread_local B t tls
      (RPyThreadStaticTLS_Create StaticTLS.thread_local B tls w).1 =
      RPyThreadStaticTLS_Get StaticTLS.thread_local B t tls w := by
  refine ⟨?_, rfl, rfl, rfl, rfl⟩
  rcases e with ⟨a, b, c, d, f, g, h⟩
  cases a <;> cases b <;> cases c <;> cases d <;> cases f <;> cases g <;> cases h <;> rfl

/-- C10 (as stated) fails: for the sequence Set(5) by thread 1, Create,
Get by thread 1 on slot 0, the `__thread` definition returns 5 (its Create is
a no-op) while the platform definition returns NULL (its Create initialises a
fresh slot), on platform primitives that satisfy the section 4.1 contract. -/
theorem C10_create_after_set_differs :
    specKeys.Lawful ∧
    observe StaticTLS.thread_local specKeys 0
      [TLSOp.set 1 5, TLSOp.create, TLSOp.get 1] freshWorld = [5] ∧
    observe StaticTLS.backend_alias specKeys 0
      [TLSOp.set 1 5, TLSOp.create, TLSOp.get 1] freshWorld = [NULL] :=
  ⟨specKeys_lawful, by decide, by decide⟩

/-- C10 (amended): over every platform that satisfies the section 4.1
contract, in a program that has just started, for every sequence of
operations on one slot that begins with a Create that reports no failure and
goes on with Sets and Gets only, by any threads, the values returned by the
Gets are the same with the `__thread` definition and with the platform
definition, and neither Create reports a failure. The header makes the
`__thread` definition whenever `USE___THREAD` is defined, and the platform one
when neither `USE___THREAD` nor `RPyThreadStaticTLS` is defined; the platform
definition hands its arguments unchanged to `RPyThreadTLS_Create`,
`RPyThreadTLS_Get` and `RPyThreadTLS_Set`. Defining `USE___THREAD` or not does
not change which platform files are made visible, and the header defines no
lock primitive. -/
theorem C10_same_observations_after_create {κ : Type} (B : TLSBackend κ) (hB : B.Lawful)
    (key : Slot) (w : World κ) (hstart : ∀ t, w.vars key t = NULL)
    (hok : (B.RPyThreadTLS_Create key w.backend).2 = none)
    (ops : List TLSOp) (hops : ∀ op ∈ ops, TLSOp.isCreate op = false)
    (e : BuildEnv) (t : Thread) (v : Ptr) :
    observe StaticTLS.thread_local B key (TLSOp.create :: ops) w =
      observe StaticTLS.backend_alias B key (TLSOp.create :: ops) w ∧
    (RPyThreadStaticTLS_Create StaticTLS.thread_local B key w).2 =
      (RPyThreadStaticTLS_Create StaticTLS.backend_alias B key w).2 ∧
    staticTLSOf { e with USE___THREAD := true } = some StaticTLS.thread_local ∧
    staticTLSOf { e with USE___THREAD := false, RPyThreadStaticTLS := false } =
      some StaticTLS.backend_alias ∧
    (RPyThreadStaticTLS_Create StaticTLS.backend_alias B key w =
      ({ w with backend := (B.RPyThreadTLS_Create key w.backend).1 },
        (B.RPyThreadTLS_Create key w.backend).2) ∧
     RPyThreadStaticTLS_Get StaticTLS.backend_alias B t key w =
      B.RPyThreadTLS_Get t key w.backend ∧
     RPyThreadStaticTLS_Set StaticTLS.backend_alias B t key v w =
      { w with backend := B.RPyThreadTLS_Set t key v w.backend }) ∧
    visibleBackends { e with USE___THREAD := !e.USE___THREAD } = visibleBackends e ∧
    decide ("RPyThreadAcquireLock" ∈ definedNames e) = false ∧
    decide ("RPyThreadReleaseLock" ∈ definedNames e) = false := by
  refine ⟨?_, ?_, ?_, ?_, ⟨rfl, rfl, rfl⟩, ?_, ?_, ?_⟩
  · simp only [observe, step]
    apply observe_agree B hB key ops hops
    intro t
    rw [get_create_fresh StaticTLS.thread_local B (fun h => by cases h) key w hstart rfl,
      get_create_fresh StaticTLS.backend_alias B (fun _ => hB.get_create) key w hstart hok]
  · simp [RPyThreadStaticTLS_Create, hok]
  all_goals
    rcases e with ⟨a, b, c, d, f, g, h⟩
    cases a <;> cases b <;> cases c <;> cases d <;> cases f <;> cases g <;> cases h <;> decide

/-- C10 at a concrete input: on the spec-modelled key primitives, after Create
thread 1 sets 7, thread 2 sets 9, thread 3 sets nothing, and all three read:
both definitions return 7, 9 and NULL. -/
theorem C10_same_observations_witness :
    observe StaticTLS.thread_local specKeys 0
      [TLSOp.create, TLSOp.set 1 7, TLSOp.set 2 9, TLSOp.get 1, TLSOp.get 2, TLSOp.get 3]
      freshWorld = [7, 9, NULL] ∧
    observe StaticTLS.backend_alias specKeys 0
      [TLSOp.create, TLSOp.set 1 7, TLSOp.set 2 9, TLSOp.get 1, TLSOp.get 2, TLSOp.get 3]
      freshWorld = [7, 9, NULL] := by
  have h := (C10_same_observations_after_create specKeys specKeys_lawful 0 freshWorld
    (fun _ => rfl) rfl
    [TLSOp.set 1 7, TLSOp.set 2 9, TLSOp.get 1, TLSOp.get 2, TLSOp.get 3] (by decide)
    bareEnv 1 7).1
  have h1 : observe StaticTLS.thread_local specKeys 0
      [TLSOp.create, TLSOp.set 1 7, TLSOp.set 2 9, TLSOp.get 1, TLSOp.get 2, TLSOp.get 3]
      freshWorld = [7, 9, NULL] := by decide
  exact ⟨h1, h ▸ h1⟩

end PyPyThread
